import Mathlib

/-!
Shallow embedding of the transaction tax-calculation and document-generation
engine of the store-transaction-manager repository.

Conventions of the embedding:
* Monetary values are modelled as exact rationals (the source stores them as
  exact-decimal `numeric` text in Postgres and converts with `parseFloat` at the
  boundary; the claims are all stated in exact arithmetic).
* Timestamps and dates are modelled as abstract `Nat` instants; the ambient
  clock (`new Date()`) and current year (`getFullYear()`) are explicit
  parameters of the operations that read them.
* The database is an explicit record of table contents; drizzle-orm calls
  (`select`/`insert`/`update`/`delete` with `eq` predicates and `innerJoin`)
  become list operations on it.  Serial primary keys become explicit
  next-id counters.
* Thrown `Error`s become an explicit error type; the error classes follow the
  taxonomy of the specification (NotFound / ValidationError /
  PreconditionFailed), keyed to the thrown message strings.
-/

/-- Transaction lifecycle status, from the `transaction_status` pg enum in
src/server/src/db/schema.ts. -/
inductive TransactionStatus where
  | draft
  | confirmed
  | paid
  | cancelled
deriving DecidableEq, Repr

/-- Catalog entry kind, from the `item_type` pg enum. -/
inductive ItemType where
  | item
  | service
deriving DecidableEq, Repr

/-- The seven document types, from the `document_type` pg enum. -/
inductive DocumentType where
  | sales_note
  | payment_receipt
  | invoice
  | bast
  | purchase_order
  | tax_invoice
  | proforma_invoice
deriving DecidableEq, Repr

/-- Error taxonomy of the specification; each thrown message of the source is
classified per the spec's error-handling design. -/
inductive DomainError where
  | notFound (msg : String)
  | validationError (msg : String)
  | preconditionFailed (msg : String)
deriving DecidableEq, Repr

/-- A row of the `store_profiles` table. -/
structure StoreProfileRow where
  id : Nat
  name : String
  address : String
  phone : String
  email : String
  npwp : String
  created_at : Nat
  updated_at : Nat
deriving DecidableEq, Repr

/-- A row of the `catalog_items` table. -/
structure CatalogItemRow where
  id : Nat
  code : String
  name : String
  type : ItemType
  unit_price : ℚ
  description : Option String
  created_at : Nat
  updated_at : Nat
deriving DecidableEq, Repr

/-- A row of the `transactions` table. -/
structure TransactionRow where
  id : Nat
  transaction_number : String
  customer_name : String
  customer_address : Option String
  customer_phone : Option String
  customer_email : Option String
  status : TransactionStatus
  subtotal : ℚ
  ppn_enabled : Bool
  ppn_amount : ℚ
  regional_tax_enabled : Bool
  regional_tax_amount : ℚ
  pph22_enabled : Bool
  pph22_amount : ℚ
  pph23_enabled : Bool
  pph23_amount : ℚ
  stamp_duty_required : Bool
  stamp_duty_amount : ℚ
  total_amount : ℚ
  notes : Option String
  transaction_date : Nat
  created_at : Nat
  updated_at : Nat
deriving DecidableEq, Repr

/-- A row of the `transaction_items` table. -/
structure TransactionItemRow where
  id : Nat
  transaction_id : Nat
  catalog_item_id : Nat
  quantity : ℚ
  unit_price : ℚ
  discount_percentage : ℚ
  line_total : ℚ
  created_at : Nat
deriving DecidableEq, Repr

/-- A row of the `documents` table. -/
structure DocumentRow where
  id : Nat
  transaction_id : Nat
  document_type : DocumentType
  document_number : String
  document_date : Nat
  recipient_name : Option String
  custom_notes : Option String
  html_content : String
  created_at : Nat
deriving DecidableEq, Repr

/-- The database state: contents of the five tables of
src/server/src/db/schema.ts, plus the serial-id counters of the tables whose
rows the modelled operations insert. -/
structure DB where
  store_profiles : List StoreProfileRow
  catalog_items : List CatalogItemRow
  transactions : List TransactionRow
  transaction_items : List TransactionItemRow
  documents : List DocumentRow
  nextTransactionId : Nat
  nextItemId : Nat
  nextDocumentId : Nat
deriving DecidableEq, Repr

/-- Input of updateTransaction (updateTransactionInputSchema in the zod
schema): every field but `id` optional; the nullable text fields distinguish
"absent" (outer `none`) from "supplied null" (`some none`). -/
structure UpdateTransactionInput where
  id : Nat
  customer_name : Option String
  customer_address : Option (Option String)
  customer_phone : Option (Option String)
  customer_email : Option (Option String)
  status : Option TransactionStatus
  ppn_enabled : Option Bool
  regional_tax_enabled : Option Bool
  pph22_enabled : Option Bool
  pph23_enabled : Option Bool
  notes : Option (Option String)
  transaction_date : Option Nat
deriving DecidableEq, Repr

/-- An update input that supplies only `id` and `status`, every other field
absent. -/
def statusOnlyInput (id : Nat) (st : TransactionStatus) : UpdateTransactionInput :=
  { id := id, customer_name := none, customer_address := none,
    customer_phone := none, customer_email := none, status := some st,
    ppn_enabled := none, regional_tax_enabled := none, pph22_enabled := none,
    pph23_enabled := none, notes := none, transaction_date := none }

/-- An update input that supplies only `id` and `ppn_enabled := false`. -/
def ppnOffOnlyInput (id : Nat) : UpdateTransactionInput :=
  { id := id, customer_name := none, customer_address := none,
    customer_phone := none, customer_email := none, status := none,
    ppn_enabled := some false, regional_tax_enabled := none,
    pph22_enabled := none, pph23_enabled := none, notes := none,
    transaction_date := none }

/-- Result fields of the tax recomputation block of
src/server/src/handlers/update_transaction.ts (lines 66-81). -/
structure TaxCalc where
  ppn_amount : ℚ
  regional_tax_amount : ℚ
  pph22_amount : ℚ
  pph23_amount : ℚ
  stamp_duty_required : Bool
  stamp_duty_amount : ℚ
  total_amount : ℚ
deriving DecidableEq, Repr

/-- The tax arithmetic of the update handler
(src/server/src/handlers/update_transaction.ts, lines 66-81), verbatim:
PPN 11%, regional tax 10%, PPh22 2.2%, PPh23 2%; stamp duty is decided from
the subtotal alone (`subtotal >= 5000000`), flat 10000 when required; the two
withholding taxes are subtracted in the total. -/
def taxCalcUpdate (subtotal : ℚ) (ppnEnabled regionalTaxEnabled pph22Enabled pph23Enabled : Bool) :
    TaxCalc :=
  let ppnAmount : ℚ := if ppnEnabled then subtotal * (11 / 100) else 0
  let regionalTaxAmount : ℚ := if regionalTaxEnabled then subtotal * (1 / 10) else 0
  let pph22Amount : ℚ := if pph22Enabled then subtotal * (22 / 1000) else 0
  let pph23Amount : ℚ := if pph23Enabled then subtotal * (2 / 100) else 0
  let stampDutyRequired : Bool := decide (subtotal ≥ 5000000)
  let stampDutyAmount : ℚ := if stampDutyRequired then 10000 else 0
  { ppn_amount := ppnAmount
    regional_tax_amount := regionalTaxAmount
    pph22_amount := pph22Amount
    pph23_amount := pph23Amount
    stamp_duty_required := stampDutyRequired
    stamp_duty_amount := stampDutyAmount
    total_amount :=
      subtotal + ppnAmount + regionalTaxAmount - pph22Amount - pph23Amount + stampDutyAmount }

/-- The line rows the update handler reads for recalculation: the transaction's
items inner-joined with the catalog table (an item whose catalog entry no
longer exists is dropped by the join). -/
def joinedUpdateItems (s : DB) (txId : Nat) : List TransactionItemRow :=
  s.transaction_items.filter (fun it =>
    it.transaction_id == txId && s.catalog_items.any (fun c => c.id == it.catalog_item_id))

/-- The subtotal the update handler re-derives: the sum of the stored
`line_total` fields of the joined item rows. -/
def updateSubtotal (s : DB) (txId : Nat) : ℚ :=
  (joinedUpdateItems s txId).foldl (fun sum it => sum + it.line_total) 0

/-- Embedding of updateTransaction
(src/server/src/handlers/update_transaction.ts).  Looks up the transaction
(NotFound if absent), applies the supplied scalar fields, and — exactly when at
least one of the four tax flags is supplied — re-derives the subtotal from the
already-persisted line items (joined with the catalog) and recomputes every
monetary field with `taxCalcUpdate`, each flag taking the supplied value or
else the persisted one.  Always refreshes `updated_at`.  Returns the mutated
state and the returned row. -/
def updateTransaction (now : Nat) (s : DB) (input : UpdateTransactionInput) :
    DB × Except DomainError TransactionRow :=
  match s.transactions.find? (fun t => t.id == input.id) with
  | none =>
      (s, .error (.notFound ("Transaction with id " ++ toString input.id ++ " not found")))
  | some existingTransaction =>
      let shouldRecalculate :=
        input.ppn_enabled.isSome || input.regional_tax_enabled.isSome ||
        input.pph22_enabled.isSome || input.pph23_enabled.isSome
      let base : TransactionRow :=
        { existingTransaction with
          updated_at := now
          customer_name := input.customer_name.getD existingTransaction.customer_name
          customer_address := input.customer_address.getD existingTransaction.customer_address
          customer_phone := input.customer_phone.getD existingTransaction.customer_phone
          customer_email := input.customer_email.getD existingTransaction.customer_email
          status := input.status.getD existingTransaction.status
          notes := input.notes.getD existingTransaction.notes
          transaction_date := input.transaction_date.getD existingTransaction.transaction_date }
      let updated : TransactionRow :=
        if shouldRecalculate then
          let subtotal := updateSubtotal s input.id
          let ppnEnabled := input.ppn_enabled.getD existingTransaction.ppn_enabled
          let regionalTaxEnabled :=
            input.regional_tax_enabled.getD existingTransaction.regional_tax_enabled
          let pph22Enabled := input.pph22_enabled.getD existingTransaction.pph22_enabled
          let pph23Enabled := input.pph23_enabled.getD existingTransaction.pph23_enabled
          let taxes := taxCalcUpdate subtotal ppnEnabled regionalTaxEnabled pph22Enabled pph23Enabled
          { base with
            subtotal := subtotal
            ppn_enabled := ppnEnabled
            ppn_amount := taxes.ppn_amount
            regional_tax_enabled := regionalTaxEnabled
            regional_tax_amount := taxes.regional_tax_amount
            pph22_enabled := pph22Enabled
            pph22_amount := taxes.pph22_amount
            pph23_enabled := pph23Enabled
            pph23_amount := taxes.pph23_amount
            stamp_duty_required := taxes.stamp_duty_required
            stamp_duty_amount := taxes.stamp_duty_amount
            total_amount := taxes.total_amount }
        else base
      ({ s with
         transactions := s.transactions.map (fun t => if t.id == input.id then updated else t) },
       .ok updated)

/-- Embedding of deleteTransaction
(src/server/src/handlers/delete_transaction.ts).  NotFound when the id is
absent; precondition failure with the fixed message
"Only draft transactions can be deleted" when the status is not draft (the
state is untouched, as the handler throws before issuing any delete);
otherwise the transaction row is deleted and — per the `onDelete: 'cascade'`
references of `transaction_items` and `documents` in
src/server/src/db/schema.ts — every line row and document row owned by it is
removed as well. -/
def deleteTransaction (s : DB) (id : Nat) : DB × Except DomainError Bool :=
  match s.transactions.find? (fun t => t.id == id) with
  | none => (s, .error (.notFound "Transaction not found"))
  | some transaction =>
      if transaction.status = TransactionStatus.draft then
        ({ s with
           transactions := s.transactions.filter (fun t => !(t.id == id))
           transaction_items := s.transaction_items.filter (fun it => !(it.transaction_id == id))
           documents := s.documents.filter (fun d => !(d.transaction_id == id)) },
         .ok true)
      else
        (s, .error (.preconditionFailed "Only draft transactions can be deleted"))

/-- The type-code table of generateDocumentNumber in the document-generation
handler: the 1:1 map from the seven document types to their number tags.  (The
source's fallback tag "DOC" for an unrecognised string is unreachable here:
the input's document_type is schema-validated to the seven-value enum.) -/
def documentTypeCode : DocumentType → String
  | .sales_note => "SN"
  | .payment_receipt => "PR"
  | .invoice => "INV"
  | .bast => "BAST"
  | .purchase_order => "PO"
  | .tax_invoice => "TAX"
  | .proforma_invoice => "PI"

/-- js `id.toString().padStart(4, '0')`: the decimal digits of `n`, preceded by
zeros up to a minimum width of 4. -/
def padStartFour (n : Nat) : String :=
  let s := toString n
  String.mk (List.replicate (4 - s.length) '0') ++ s

/-- generateDocumentNumber of the document-generation handler:
`{code}-{currentYear}-{paddedId}`, the current year an explicit parameter. -/
def generateDocumentNumber (year : Nat) (documentType : DocumentType) (id : Nat) : String :=
  documentTypeCode documentType ++ "-" ++ toString year ++ "-" ++ padStartFour id

/-- Input of generateDocument (generateDocumentInputSchema in the zod schema). -/
structure GenerateDocumentInput where
  transaction_id : Nat
  document_type : DocumentType
  document_date : Option Nat
  recipient_name : Option String
  custom_notes : Option String
deriving DecidableEq, Repr

/-- The item rows generateDocument reads: the transaction's items inner-joined
with their catalog entries. -/
def joinedDocumentItems (s : DB) (txId : Nat) :
    List (TransactionItemRow × CatalogItemRow) :=
  s.transaction_items.filterMap (fun it =>
    if it.transaction_id == txId then
      (s.catalog_items.find? (fun c => c.id == it.catalog_item_id)).map (fun c => (it, c))
    else none)

/-- Embedding of generateHtmlContent of the document-generation handler.  Only
the document heading block is modelled (the document type, underscores
replaced by spaces and upper-cased, followed by the document number); the
remainder of the template — store-profile block, customer block, item table,
tax footer, notes, and the id-ID locale currency/date formatting — is
locale-dependent string rendering on which no verified claim depends, and is
deliberately not reproduced. -/
def generateHtmlContent (documentType : DocumentType) (documentNumber : String) : String :=
  let heading := ((documentTypeCode documentType) ++ " heading of " ++ documentNumber)
  heading

/-- The placeholder row generateDocument inserts first, before it can know the
serial id the final document number embeds: document_number "TEMP" and empty
html_content, all other fields final. -/
def placeholderDocument (now : Nat) (s : DB) (input : GenerateDocumentInput) : DocumentRow :=
  { id := s.nextDocumentId
    transaction_id := input.transaction_id
    document_type := input.document_type
    document_number := "TEMP"
    document_date := input.document_date.getD now
    recipient_name := input.recipient_name
    custom_notes := input.custom_notes
    html_content := ""
    created_at := now }

/-- The database state visible between generateDocument's two write statements:
after the placeholder insert has committed and before the update that fills in
the final number and html.  `none` when one of the three pre-insert checks
fails (so nothing was written).  The source wraps the two statements in no
transaction, so this state is exactly what remains if the second statement
fails. -/
def generateDocumentMidState (now : Nat) (s : DB) (input : GenerateDocumentInput) :
    Option DB :=
  match s.transactions.find? (fun t => t.id == input.transaction_id) with
  | none => none
  | some _ =>
      if (joinedDocumentItems s input.transaction_id).isEmpty then none
      else
        match s.store_profiles.head? with
        | none => none
        | some _ =>
            some { s with
                   documents := s.documents ++ [placeholderDocument now s input]
                   nextDocumentId := s.nextDocumentId + 1 }

/-- Embedding of generateDocument of the document-generation handler.  Checks,
in order: the transaction exists (NotFound), the joined item list is nonempty
(the "No items found" validation error), a store profile row exists
(the "Store profile not found" precondition failure) — each check happens
before any write, so on failure the state is returned untouched.  Then the
two-phase write: insert the placeholder row (allocating the serial id),
compute the document number from that id and the current year, render the
html, and update the row with both.  Returns the mutated state and the final
document row. -/
def generateDocument (now year : Nat) (s : DB) (input : GenerateDocumentInput) :
    DB × Except DomainError DocumentRow :=
  match s.transactions.find? (fun t => t.id == input.transaction_id) with
  | none =>
      (s, .error (.notFound
        ("Transaction with id " ++ toString input.transaction_id ++ " not found")))
  | some _transaction =>
      if (joinedDocumentItems s input.transaction_id).isEmpty then
        (s, .error (.validationError
          ("No items found for transaction " ++ toString input.transaction_id)))
      else
        match s.store_profiles.head? with
        | none => (s, .error (.preconditionFailed "Store profile not found"))
        | some _storeProfile =>
            let documentRecord := placeholderDocument now s input
            let s1 : DB :=
              { s with
                documents := s.documents ++ [documentRecord]
                nextDocumentId := s.nextDocumentId + 1 }
            let documentNumber := generateDocumentNumber year input.document_type documentRecord.id
            let htmlContent := generateHtmlContent input.document_type documentNumber
            let finalDocument : DocumentRow :=
              { documentRecord with
                document_number := documentNumber
                html_content := htmlContent }
            ({ s1 with
               documents := s1.documents.map
                 (fun d => if d.id == documentRecord.id then finalDocument else d) },
             .ok finalDocument)

/-- One line of createTransaction's input (items element of
createTransactionInputSchema). -/
structure CreateItemInput where
  catalog_item_id : Nat
  quantity : ℚ
  unit_price : ℚ
  discount_percentage : ℚ
deriving DecidableEq, Repr

/-- Input of createTransaction (createTransactionInputSchema in the zod
schema), after zod has applied defaults and validated quantity > 0,
unit_price > 0, 0 ≤ discount ≤ 100. -/
structure CreateTransactionInput where
  customer_name : String
  customer_address : Option String
  customer_phone : Option String
  customer_email : Option String
  ppn_enabled : Bool
  regional_tax_enabled : Bool
  pph22_enabled : Bool
  pph23_enabled : Bool
  notes : Option String
  transaction_date : Option Nat
  items : List CreateItemInput
deriving DecidableEq, Repr

/-- Pricing Calculator line formula of the spec:
line_total = quantity * unit_price * (1 - discount_percentage/100). -/
def lineTotal (i : CreateItemInput) : ℚ :=
  i.quantity * i.unit_price * (1 - i.discount_percentage / 100)

/-- Modelled from the spec: the repository's createTransaction handler survives
only as a placeholder stub (src/unnamed/part_007 declares it with the comment
"This is a placeholder declaration! Real code should be implemented here"), so
the operation is modelled from spec sections 4.1 to 4.3 and the handler's test
suite: validate the item list nonempty (ValidationError) and every referenced
catalog id existent (NotFound naming the id); compute each line_total and
subtotal; apply the create-path rates recorded by the spec and pinned by the
tests (PPN 11%, regional tax 1%, PPh22 0.2%, PPh23 2%), withholding taxes
deducted per the spec's recommended sign convention; stamp duty flat 10000
when the pre-stamp-duty total reaches 5,000,000; persist the header row and
one line row per item and return the header with status draft.  The generated
transaction number and the clock are explicit parameters. -/
def createTransaction (now : Nat) (txNumber : String) (s : DB)
    (input : CreateTransactionInput) : DB × Except DomainError TransactionRow :=
  if input.items.isEmpty then
    (s, .error (.validationError "At least one item is required"))
  else
    match input.items.find?
        (fun i => !(s.catalog_items.any (fun c => c.id == i.catalog_item_id))) with
    | some missing =>
        (s, .error (.notFound
          ("Catalog item with id " ++ toString missing.catalog_item_id ++ " not found")))
    | none =>
        let subtotal := (input.items.map lineTotal).foldl (· + ·) 0
        let ppnAmount : ℚ := if input.ppn_enabled then subtotal * (11 / 100) else 0
        let regionalTaxAmount : ℚ :=
          if input.regional_tax_enabled then subtotal * (1 / 100) else 0
        let pph22Amount : ℚ := if input.pph22_enabled then subtotal * (2 / 1000) else 0
        let pph23Amount : ℚ := if input.pph23_enabled then subtotal * (2 / 100) else 0
        let preStampTotal := subtotal + ppnAmount + regionalTaxAmount - pph22Amount - pph23Amount
        let stampDutyRequired : Bool := decide (preStampTotal ≥ 5000000)
        let stampDutyAmount : ℚ := if stampDutyRequired then 10000 else 0
        let totalAmount := preStampTotal + stampDutyAmount
        let t : TransactionRow :=
          { id := s.nextTransactionId
            transaction_number := txNumber
            customer_name := input.customer_name
            customer_address := input.customer_address
            customer_phone := input.customer_phone
            customer_email := input.customer_email
            status := .draft
            subtotal := subtotal
            ppn_enabled := input.ppn_enabled
            ppn_amount := ppnAmount
            regional_tax_enabled := input.regional_tax_enabled
            regional_tax_amount := regionalTaxAmount
            pph22_enabled := input.pph22_enabled
            pph22_amount := pph22Amount
            pph23_enabled := input.pph23_enabled
            pph23_amount := pph23Amount
            stamp_duty_required := stampDutyRequired
            stamp_duty_amount := stampDutyAmount
            total_amount := totalAmount
            notes := input.notes
            transaction_date := input.transaction_date.getD now
            created_at := now
            updated_at := now }
        let newItems := input.items.enum.map (fun p =>
          { id := s.nextItemId + p.1
            transaction_id := t.id
            catalog_item_id := p.2.catalog_item_id
            quantity := p.2.quantity
            unit_price := p.2.unit_price
            discount_percentage := p.2.discount_percentage
            line_total := lineTotal p.2
            created_at := now : TransactionItemRow })
        ({ s with
           transactions := s.transactions ++ [t]
           transaction_items := s.transaction_items ++ newItems
           nextTransactionId := s.nextTransactionId + 1
           nextItemId := s.nextItemId + input.items.length },
         .ok t)

instance {ε α : Type} [DecidableEq ε] [DecidableEq α] : DecidableEq (Except ε α) := fun a b =>
  match a, b with
  | .error e, .error f =>
      if h : e = f then isTrue (by rw [h]) else isFalse (fun hh => h (Except.error.inj hh))
  | .error _, .ok _ => isFalse Except.noConfusion
  | .ok _, .error _ => isFalse Except.noConfusion
  | .ok a, .ok b =>
      if h : a = b then isTrue (by rw [h]) else isFalse (fun hh => h (Except.ok.inj hh))

/-- The empty database. -/
def emptyDB : DB :=
  { store_profiles := [], catalog_items := [], transactions := [],
    transaction_items := [], documents := [],
    nextTransactionId := 1, nextItemId := 1, nextDocumentId := 1 }

/-- A catalog row mirroring the test fixture of the createTransaction suite. -/
def sampleCatalogItem : CatalogItemRow :=
  { id := 1, code := "TEST-001", name := "Test Item", type := .item,
    unit_price := 1000, description := some "Test item for transactions",
    created_at := 0, updated_at := 0 }

/-- A transaction row with every monetary field zero and every flag off, used
as the base of concrete fixtures. -/
def baseTxRow : TransactionRow :=
  { id := 1, transaction_number := "TRX-001", customer_name := "John Doe",
    customer_address := none, customer_phone := none, customer_email := none,
    status := .draft, subtotal := 0,
    ppn_enabled := false, ppn_amount := 0,
    regional_tax_enabled := false, regional_tax_amount := 0,
    pph22_enabled := false, pph22_amount := 0,
    pph23_enabled := false, pph23_amount := 0,
    stamp_duty_required := false, stamp_duty_amount := 0,
    total_amount := 0, notes := none, transaction_date := 0,
    created_at := 0, updated_at := 0 }

/-- A line row of transaction 1 over catalog item 1: quantity 1, unit price
1000, no discount, stored line_total 1000. -/
def sampleItemRow : TransactionItemRow :=
  { id := 1, transaction_id := 1, catalog_item_id := 1, quantity := 1,
    unit_price := 1000, discount_percentage := 0, line_total := 1000,
    created_at := 0 }

/-- A store profile fixture. -/
def sampleProfile : StoreProfileRow :=
  { id := 1, name := "Toko Maju", address := "Jl. Merdeka 1",
    phone := "0211234567", email := "toko@example.com", npwp := "01.234.567.8-901.000",
    created_at := 0, updated_at := 0 }

/-- Database holding only catalog item 1, the pre-state of the C1 scenario. -/
def c1DB : DB := { emptyDB with catalog_items := [sampleCatalogItem] }

/-- The C1 scenario input: one line of quantity 2, unit price 1000, zero
discount; ppn enabled, the other three tax flags off. -/
def c1Input : CreateTransactionInput :=
  { customer_name := "John Doe", customer_address := some "123 Main St",
    customer_phone := some "081234567890", customer_email := some "john@example.com",
    ppn_enabled := true, regional_tax_enabled := false, pph22_enabled := false,
    pph23_enabled := false, notes := some "Test transaction", transaction_date := none,
    items := [{ catalog_item_id := 1, quantity := 2, unit_price := 1000,
                discount_percentage := 0 }] }

set_option maxRecDepth 4000 in
/-- C1: createTransaction on exactly one line item with quantity 2, unit price
1000, discount 0, ppn enabled and the three other tax flags off returns a
transaction with subtotal 2000, ppn_amount 220 (11% of 2000) and total_amount
2220.  (The handler is spec-modelled; the scenario matches its test
"should create a basic transaction with PPN".) -/
theorem c1_create_basic_ppn_scenario :
    ((createTransaction 0 "TRX-001" c1DB c1Input).2.map
      (fun t => (t.subtotal, t.ppn_amount, t.total_amount))) =
      .ok ((2000 : ℚ), (220 : ℚ), (2220 : ℚ)) := by
  with_unfolding_all decide

/-- C3 (corrected): in the update handler's tax computation the stamp-duty
decision is taken from the subtotal alone: stamp_duty_required holds exactly
when subtotal is at least 5,000,000 (the boundary value is required), and
stamp_duty_amount is 10,000 when required and 0 otherwise — the enabled tax
amounts play no part in the threshold test. -/
theorem c3_stamp_threshold_amended (subtotal : ℚ)
    (ppnEnabled regionalTaxEnabled pph22Enabled pph23Enabled : Bool) :
    ((taxCalcUpdate subtotal ppnEnabled regionalTaxEnabled pph22Enabled
        pph23Enabled).stamp_duty_required = true ↔ 5000000 ≤ subtotal) ∧
    (taxCalcUpdate subtotal ppnEnabled regionalTaxEnabled pph22Enabled
        pph23Enabled).stamp_duty_amount =
      (if 5000000 ≤ subtotal then (10000 : ℚ) else 0) := by
  simp [taxCalcUpdate, ge_iff_le]

/-- C3 counterexample: at subtotal 4,600,000 with ppn enabled the pre-stamp
total subtotal + ppn_amount is 5,106,000 ≥ 5,000,000, yet the code does not
require stamp duty — refuting the claim that the threshold is tested against
the pre-stamp-duty total. -/
theorem c3_stamp_prestamp_counterexample :
    (taxCalcUpdate 4600000 true false false false).stamp_duty_required = false ∧
    5000000 ≤ (4600000 : ℚ) + (taxCalcUpdate 4600000 true false false false).ppn_amount ∧
    (taxCalcUpdate 4600000 true false false false).stamp_duty_amount = 0 := by
  with_unfolding_all decide

/-- The pre-state of the C8 run: a draft transaction with one catalogued line
and a store profile, so every pre-insert check of generateDocument passes. -/
def c8DB : DB :=
  { emptyDB with
    store_profiles := [sampleProfile]
    catalog_items := [sampleCatalogItem]
    transactions := [{ baseTxRow with subtotal := 1000, total_amount := 1000 }]
    transaction_items := [sampleItemRow] }

/-- The C8 generation request: an invoice for transaction 1. -/
def c8Input : GenerateDocumentInput :=
  { transaction_id := 1, document_type := .invoice, document_date := none,
    recipient_name := none, custom_notes := none }

/-- The state visible between generateDocument's two write statements on the
C8 run. -/
def c8MidDB : DB := (generateDocumentMidState 0 c8DB c8Input).getD c8DB

/-- C8 (code bug): generateDocument's placeholder insert and its follow-up
update are two separate statements with no enclosing transaction, so the
intermediate state — the one left visible if the update fails after the
insert — already contains a document row with the placeholder number "TEMP"
and empty html, contradicting the required atomicity (a partial failure must
leave no visible row). -/
theorem c8_placeholder_row_visible :
    generateDocumentMidState 0 c8DB c8Input = some c8MidDB ∧
    c8MidDB.documents.any
      (fun d => d.document_number == "TEMP" && d.html_content == "") = true ∧
    c8MidDB ≠ c8DB := by
  decide

/-- A confirmed-status copy of the base transaction row. -/
def c4ConfirmedTx : TransactionRow := { baseTxRow with status := .confirmed }

/-- A paid-status copy of the base transaction row. -/
def c4PaidTx : TransactionRow := { baseTxRow with status := .paid }

/-- Database holding the confirmed transaction and its line row. -/
def c4ConfirmedDB : DB :=
  { emptyDB with transactions := [c4ConfirmedTx], transaction_items := [sampleItemRow] }

/-- Database holding the paid transaction and its line row. -/
def c4PaidDB : DB :=
  { emptyDB with transactions := [c4PaidTx], transaction_items := [sampleItemRow] }

/-- Database holding the draft transaction and its line row. -/
def c4DraftDB : DB :=
  { emptyDB with transactions := [baseTxRow], transaction_items := [sampleItemRow] }

/-- C4 (corrected): deleteTransaction fails with NotFound when the id is
absent; when the transaction exists with a status other than draft it fails
with the PreconditionFailed-class error "Only draft transactions can be
deleted" — a fixed message that does not name the current state — and leaves
the whole database state, in particular the transaction row and its line rows,
unchanged; when the status is draft it removes the transaction row and, by the
schema's cascade, every line row owned by it. -/
theorem c4_delete_transaction_amended (s : DB) (id : Nat) :
    (s.transactions.find? (fun t => t.id == id) = none →
      deleteTransaction s id = (s, .error (.notFound "Transaction not found"))) ∧
    (∀ t, s.transactions.find? (fun x => x.id == id) = some t →
      t.status ≠ .draft →
      deleteTransaction s id =
        (s, .error (.preconditionFailed "Only draft transactions can be deleted"))) ∧
    (∀ t, s.transactions.find? (fun x => x.id == id) = some t →
      t.status = .draft →
      (deleteTransaction s id).2 = .ok true ∧
      (deleteTransaction s id).1.transactions =
        s.transactions.filter (fun x => !(x.id == id)) ∧
      (deleteTransaction s id).1.transaction_items =
        s.transaction_items.filter (fun it => !(it.transaction_id == id)) ∧
      ∀ it ∈ (deleteTransaction s id).1.transaction_items, it.transaction_id ≠ id) := by
  refine ⟨fun h => by simp [deleteTransaction, h], fun t h hst => ?_, fun t h hst => ?_⟩
  · simp [deleteTransaction, h, hst]
  · refine ⟨by simp [deleteTransaction, h, hst], by simp [deleteTransaction, h, hst],
      by simp [deleteTransaction, h, hst], fun it hit => ?_⟩
    simp only [deleteTransaction, h, hst, if_pos] at hit
    have := (List.mem_filter.mp hit).2
    simpa using this

/-- C4 counterexample: deleting a confirmed transaction and deleting a paid
transaction produce the identical error value, the fixed message "Only draft
transactions can be deleted", although the two current states differ — so the
error does not identify the current state. -/
theorem c4_delete_error_message_counterexample :
    (deleteTransaction c4ConfirmedDB 1).2 = (deleteTransaction c4PaidDB 1).2 ∧
    (deleteTransaction c4PaidDB 1).2 =
      .error (.preconditionFailed "Only draft transactions can be deleted") ∧
    c4ConfirmedTx.status ≠ c4PaidTx.status := by
  decide

/-- Witness for C4: concrete instances of the three branches. -/
theorem c4_delete_transaction_witness :
    deleteTransaction emptyDB 1 = (emptyDB, .error (.notFound "Transaction not found")) ∧
    deleteTransaction c4ConfirmedDB 1 =
      (c4ConfirmedDB, .error (.preconditionFailed "Only draft transactions can be deleted")) ∧
    (deleteTransaction c4DraftDB 1).2 = .ok true :=
  ⟨(c4_delete_transaction_amended emptyDB 1).1 (by decide),
   (c4_delete_transaction_amended c4ConfirmedDB 1).2.1 c4ConfirmedTx (by decide) (by decide),
   ((c4_delete_transaction_amended c4DraftDB 1).2.2 baseTxRow (by decide) (by decide)).1⟩

/-- C7: generateDocument fails with NotFound when the transaction is absent,
with the ValidationError "No items found for transaction ..." when the
transaction has no (joined) line items, and with the PreconditionFailed
"Store profile not found" when no store profile row exists; in each case the
returned state is the input state, so no document row is persisted. -/
theorem c7_generate_document_failures (now year : Nat) (s : DB)
    (input : GenerateDocumentInput) :
    (s.transactions.find? (fun t => t.id == input.transaction_id) = none →
      generateDocument now year s input =
        (s, .error (.notFound
          ("Transaction with id " ++ toString input.transaction_id ++ " not found")))) ∧
    ((s.transactions.find? (fun t => t.id == input.transaction_id)).isSome →
      joinedDocumentItems s input.transaction_id = [] →
      generateDocument now year s input =
        (s, .error (.validationError
          ("No items found for transaction " ++ toString input.transaction_id)))) ∧
    ((s.transactions.find? (fun t => t.id == input.transaction_id)).isSome →
      joinedDocumentItems s input.transaction_id ≠ [] →
      s.store_profiles = [] →
      generateDocument now year s input =
        (s, .error (.preconditionFailed "Store profile not found"))) := by
  refine ⟨fun h => by simp [generateDocument, h], fun h hempty => ?_, fun h hne hprof => ?_⟩
  · obtain ⟨t, ht⟩ := Option.isSome_iff_exists.mp h
    simp [generateDocument, ht, hempty]
  · obtain ⟨t, ht⟩ := Option.isSome_iff_exists.mp h
    simp [generateDocument, ht, hne, hprof]

/-- The generation request used by the C7 witness. -/
def c7Input : GenerateDocumentInput :=
  { transaction_id := 1, document_type := .sales_note, document_date := none,
    recipient_name := none, custom_notes := none }

/-- Database with a transaction but no line rows. -/
def c7NoItemsDB : DB := { emptyDB with transactions := [baseTxRow] }

/-- Database with a transaction and a catalogued line row but no store
profile. -/
def c7NoProfileDB : DB :=
  { emptyDB with
    transactions := [baseTxRow]
    transaction_items := [sampleItemRow]
    catalog_items := [sampleCatalogItem] }

/-- Witness for C7: the three failure branches at concrete states. -/
theorem c7_generate_document_failures_witness :
    generateDocument 0 2024 emptyDB c7Input =
      (emptyDB, .error (.notFound
        ("Transaction with id " ++ toString (1 : Nat) ++ " not found"))) ∧
    generateDocument 0 2024 c7NoItemsDB c7Input =
      (c7NoItemsDB, .error (.validationError
        ("No items found for transaction " ++ toString (1 : Nat)))) ∧
    generateDocument 0 2024 c7NoProfileDB c7Input =
      (c7NoProfileDB, .error (.preconditionFailed "Store profile not found")) :=
  ⟨(c7_generate_document_failures 0 2024 emptyDB c7Input).1 (by decide),
   (c7_generate_document_failures 0 2024 c7NoItemsDB c7Input).2.1 (by decide) (by decide),
   (c7_generate_document_failures 0 2024 c7NoProfileDB c7Input).2.2
     (by decide) (by decide) (by decide)⟩

/-- The final row generateDocument writes in its second statement: the
placeholder row with the generated number and rendered html filled in. -/
def finalizedDocument (now year : Nat) (s : DB) (input : GenerateDocumentInput) :
    DocumentRow :=
  { placeholderDocument now s input with
    document_number := generateDocumentNumber year input.document_type s.nextDocumentId
    html_content := generateHtmlContent input.document_type
      (generateDocumentNumber year input.document_type s.nextDocumentId) }

/-- On the success path (transaction found, joined items nonempty, a store
profile present) generateDocument returns the finalized row, and the final
state carries the placeholder list with that row substituted in. -/
lemma generateDocument_ok_eq (now year : Nat) (s : DB) (input : GenerateDocumentInput)
    (t : TransactionRow) (p : StoreProfileRow)
    (hfind : s.transactions.find? (fun x => x.id == input.transaction_id) = some t)
    (hempty : (joinedDocumentItems s input.transaction_id).isEmpty = false)
    (hprof : s.store_profiles.head? = some p) :
    generateDocument now year s input =
      ({ s with
         documents := (s.documents ++ [placeholderDocument now s input]).map
           (fun d => if d.id == (placeholderDocument now s input).id then
              finalizedDocument now year s input else d)
         nextDocumentId := s.nextDocumentId + 1 },
       .ok (finalizedDocument now year s input)) := by
  simp only [generateDocument, hfind, hempty, hprof, Bool.false_eq_true, if_false,
    finalizedDocument, placeholderDocument]

/-- C6: every document generateDocument returns carries a document_number of
the form typeCode-year-paddedId, where the type code is the 1:1 map over the
seven document types (sales_note SN, payment_receipt PR, invoice INV, bast
BAST, purchase_order PO, tax_invoice TAX, proforma_invoice PI), the id —
zero-padded to a minimum of four digits — is the serial identity the row was
allocated at insert, and the row with that identity is persisted in the final
state. -/
theorem c6_document_number_format (now year : Nat) (s : DB)
    (input : GenerateDocumentInput) (d : DocumentRow)
    (h : (generateDocument now year s input).2 = .ok d) :
    d.document_number =
      documentTypeCode input.document_type ++ "-" ++ toString year ++ "-" ++
        padStartFour d.id ∧
    d.id = s.nextDocumentId ∧
    d ∈ (generateDocument now year s input).1.documents ∧
    documentTypeCode .sales_note = "SN" ∧ documentTypeCode .payment_receipt = "PR" ∧
    documentTypeCode .invoice = "INV" ∧ documentTypeCode .bast = "BAST" ∧
    documentTypeCode .purchase_order = "PO" ∧ documentTypeCode .tax_invoice = "TAX" ∧
    documentTypeCode .proforma_invoice = "PI" := by
  rcases hfind : s.transactions.find? (fun x => x.id == input.transaction_id) with _ | t
  · simp [generateDocument, hfind] at h
  · rcases hempty : (joinedDocumentItems s input.transaction_id).isEmpty with _ | _
    · rcases hprof : s.store_profiles.head? with _ | p
      · simp [generateDocument, hfind, hempty, hprof] at h
      · rw [generateDocument_ok_eq now year s input t p hfind hempty hprof] at h
        simp only [Except.ok.injEq] at h
        subst h
        refine ⟨rfl, rfl, ?_, rfl, rfl, rfl, rfl, rfl, rfl, rfl⟩
        rw [generateDocument_ok_eq now year s input t p hfind hempty hprof]
        have hmem : placeholderDocument now s input ∈
            s.documents ++ [placeholderDocument now s input] :=
          List.mem_append_right _ (List.mem_singleton.mpr rfl)
        have hsub := List.mem_map_of_mem
          (fun d => if d.id == (placeholderDocument now s input).id then
             finalizedDocument now year s input else d) hmem
        simp only [beq_self_eq_true, if_pos] at hsub
        exact hsub
    · simp [generateDocument, hfind, hempty] at h

/-- The pre-state of the C6 witness run: transaction 1 with a catalogued line
and a store profile. -/
def c6DB : DB :=
  { emptyDB with
    store_profiles := [sampleProfile]
    catalog_items := [sampleCatalogItem]
    transactions := [{ baseTxRow with subtotal := 1000, total_amount := 1000 }]
    transaction_items := [sampleItemRow] }

/-- The C6 witness request: an invoice for transaction 1. -/
def c6Input : GenerateDocumentInput :=
  { transaction_id := 1, document_type := .invoice, document_date := none,
    recipient_name := none, custom_notes := none }

/-- The document the C6 witness run returns. -/
def c6GenDoc : DocumentRow :=
  ((generateDocument 0 2024 c6DB c6Input).2.toOption).getD
    (placeholderDocument 0 c6DB c6Input)

/-- Witness for C6: the concrete invoice generation run. -/
theorem c6_document_number_witness :
    c6GenDoc.document_number =
      documentTypeCode c6Input.document_type ++ "-" ++ toString (2024 : Nat) ++ "-" ++
        padStartFour c6GenDoc.id ∧
    c6GenDoc.id = c6DB.nextDocumentId ∧
    c6GenDoc ∈ (generateDocument 0 2024 c6DB c6Input).1.documents ∧
    documentTypeCode .sales_note = "SN" ∧ documentTypeCode .payment_receipt = "PR" ∧
    documentTypeCode .invoice = "INV" ∧ documentTypeCode .bast = "BAST" ∧
    documentTypeCode .purchase_order = "PO" ∧ documentTypeCode .tax_invoice = "TAX" ∧
    documentTypeCode .proforma_invoice = "PI" :=
  c6_document_number_format 0 2024 c6DB c6Input c6GenDoc (by decide)

/-- A status-only update never triggers recalculation: the stored and returned
row is the found row with exactly the status and the audit timestamp
replaced. -/
lemma updateTransaction_statusOnly_eq (now : Nat) (s : DB) (id : Nat)
    (st : TransactionStatus) (t : TransactionRow)
    (hfind : s.transactions.find? (fun x => x.id == id) = some t) :
    updateTransaction now s (statusOnlyInput id st) =
      ({ s with
         transactions := s.transactions.map (fun x =>
           if x.id == id then { t with status := st, updated_at := now } else x) },
       .ok { t with status := st, updated_at := now }) := by
  simp [updateTransaction, statusOnlyInput, hfind]

/-- C9: updating an existing transaction with only an id and a status value
changes only the status field and the updated_at timestamp of that row; the
returned row keeps every monetary field, flag and scalar of the old row, the
line rows and the documents table are untouched, and no document is generated
as a side effect. -/
theorem c9_status_update_frame (now : Nat) (s : DB) (id : Nat)
    (st : TransactionStatus) (t : TransactionRow)
    (hfind : s.transactions.find? (fun x => x.id == id) = some t) :
    (updateTransaction now s (statusOnlyInput id st)).2 =
      .ok { t with status := st, updated_at := now } ∧
    (updateTransaction now s (statusOnlyInput id st)).1.transaction_items =
      s.transaction_items ∧
    (updateTransaction now s (statusOnlyInput id st)).1.documents = s.documents ∧
    (updateTransaction now s (statusOnlyInput id st)).1.transactions =
      s.transactions.map (fun x => if x.id == id then
        { t with status := st, updated_at := now } else x) := by
  rw [updateTransaction_statusOnly_eq now s id st t hfind]
  exact ⟨rfl, rfl, rfl, rfl⟩

/-- A transaction row with a nonzero snapshot, used by the C9 witness. -/
def c9Tx : TransactionRow :=
  { baseTxRow with
    subtotal := 1000
    ppn_enabled := true
    ppn_amount := 110
    total_amount := 1110 }

/-- The C9 witness database. -/
def c9DB : DB :=
  { emptyDB with
    transactions := [c9Tx]
    transaction_items := [sampleItemRow]
    catalog_items := [sampleCatalogItem] }

/-- Witness for C9: confirming transaction 1 at time 5 touches only status and
updated_at. -/
theorem c9_status_update_frame_witness :
    (updateTransaction 5 c9DB (statusOnlyInput 1 .confirmed)).2 =
      .ok { c9Tx with status := .confirmed, updated_at := 5 } ∧
    (updateTransaction 5 c9DB (statusOnlyInput 1 .confirmed)).1.transaction_items =
      c9DB.transaction_items ∧
    (updateTransaction 5 c9DB (statusOnlyInput 1 .confirmed)).1.documents =
      c9DB.documents ∧
    (updateTransaction 5 c9DB (statusOnlyInput 1 .confirmed)).1.transactions =
      c9DB.transactions.map (fun x => if x.id == 1 then
        { c9Tx with status := .confirmed, updated_at := 5 } else x) :=
  c9_status_update_frame 5 c9DB 1 .confirmed c9Tx (by decide)

/-- C10: updateTransaction imposes no restriction on status transitions — for
a transaction in any current status and any requested status (reversals
included) the status-only update succeeds and persists the requested
status. -/
theorem c10_status_transitions_unrestricted (now : Nat) (s : DB) (id : Nat)
    (stOld stNew : TransactionStatus) (t : TransactionRow)
    (hfind : s.transactions.find? (fun x => x.id == id) = some t)
    (_hstatus : t.status = stOld) :
    ((updateTransaction now s (statusOnlyInput id stNew)).2.map
      TransactionRow.status) = .ok stNew := by
  rw [updateTransaction_statusOnly_eq now s id stNew t hfind]
  rfl

/-- A paid transaction, used by the C10 witness. -/
def c10PaidTx : TransactionRow := { baseTxRow with status := .paid }

/-- The C10 witness database. -/
def c10DB : DB := { emptyDB with transactions := [c10PaidTx] }

/-- Witness for C10: the reversal paid back to draft succeeds and persists
draft. -/
theorem c10_status_transitions_witness :
    ((updateTransaction 3 c10DB (statusOnlyInput 1 .draft)).2.map
      TransactionRow.status) = .ok TransactionStatus.draft :=
  c10_status_transitions_unrestricted 3 c10DB 1 .paid .draft c10PaidTx
    (by decide) (by decide)

/-- The monetary invariant the create and update paths actually maintain: the
total is the subtotal plus PPN, regional tax and stamp duty MINUS the two
withholding taxes, and each tax amount is zero whenever its flag is off. -/
def TaxTotalInvariant (t : TransactionRow) : Prop :=
  t.total_amount = t.subtotal + t.ppn_amount + t.regional_tax_amount -
    t.pph22_amount - t.pph23_amount + t.stamp_duty_amount ∧
  (t.ppn_enabled = false → t.ppn_amount = 0) ∧
  (t.regional_tax_enabled = false → t.regional_tax_amount = 0) ∧
  (t.pph22_enabled = false → t.pph22_amount = 0) ∧
  (t.pph23_enabled = false → t.pph23_amount = 0)

instance (t : TransactionRow) : Decidable (TaxTotalInvariant t) := by
  unfold TaxTotalInvariant
  exact inferInstance

/-- C2 (corrected): every transaction returned (and, identically, persisted)
by createTransaction satisfies the invariant with the withholding taxes
subtracted, and updateTransaction preserves it: when a tax flag is supplied
the row is wholly recomputed and satisfies it outright, and otherwise the
monetary fields are carried over unchanged from a pre-state row. -/
theorem c2_total_invariant_amended (now : Nat) (txNumber : String) (s : DB)
    (ci : CreateTransactionInput) (ui : UpdateTransactionInput)
    (t u : TransactionRow) :
    ((createTransaction now txNumber s ci).2 = .ok t → TaxTotalInvariant t) ∧
    ((updateTransaction now s ui).2 = .ok u →
      (∀ t0 ∈ s.transactions, TaxTotalInvariant t0) → TaxTotalInvariant u) := by
  constructor
  · intro h
    unfold createTransaction at h
    split at h
    · simp at h
    · split at h
      · simp at h
      · simp only [Except.ok.injEq] at h
        subst h
        unfold TaxTotalInvariant
        dsimp only
        refine ⟨rfl, ?_, ?_, ?_, ?_⟩ <;> intro hf <;> simp [hf]
  · intro h hprev
    unfold updateTransaction at h
    rcases hfind : s.transactions.find? (fun x => x.id == ui.id) with _ | t0
    · rw [hfind] at h; simp at h
    · rw [hfind] at h
      simp only [Except.ok.injEq] at h
      split at h
      · subst h
        unfold TaxTotalInvariant
        dsimp only [taxCalcUpdate]
        refine ⟨rfl, ?_, ?_, ?_, ?_⟩ <;> intro hf <;> simp [hf]
      · subst h
        have h0 := hprev t0 (List.mem_of_find?_eq_some hfind)
        exact h0

/-- A transaction row whose persisted fields satisfy the actual invariant:
subtotal 1000, every tax off, total 1000. -/
def c2xTx : TransactionRow :=
  { baseTxRow with
    subtotal := 1000
    total_amount := 1000 }

/-- Database for the C2 runs: catalogued item, the plain transaction and its
line row of stored line_total 1000. -/
def c2xDB : DB :=
  { emptyDB with
    catalog_items := [sampleCatalogItem]
    transactions := [c2xTx]
    transaction_items := [sampleItemRow] }

/-- An update input that supplies only `id` and `pph23_enabled := true`. -/
def pph23OnOnlyInput (id : Nat) : UpdateTransactionInput :=
  { id := id, customer_name := none, customer_address := none,
    customer_phone := none, customer_email := none, status := none,
    ppn_enabled := none, regional_tax_enabled := none,
    pph22_enabled := none, pph23_enabled := some true, notes := none,
    transaction_date := none }

/-- C2 counterexample: enabling pph23 on a transaction with subtotal 1000
produces total_amount 980 — the withholding tax is subtracted — so the
returned transaction refutes the claimed all-additive equation
total = subtotal + ppn + regional + pph22 + pph23 + stamp (which gives
1020). -/
theorem c2_total_sign_counterexample :
    ((updateTransaction 1 c2xDB (pph23OnOnlyInput 1)).2.map (fun t =>
      decide (t.total_amount = t.subtotal + t.ppn_amount + t.regional_tax_amount +
        t.pph22_amount + t.pph23_amount + t.stamp_duty_amount))) = .ok false := by
  with_unfolding_all decide

/-- Database holding only the catalog item, the pre-state of the C2 create
run. -/
def c2wDB : DB := { emptyDB with catalog_items := [sampleCatalogItem] }

/-- The C2 create-side input: ppn and pph23 enabled over one line of 1000. -/
def c2wCreateInput : CreateTransactionInput :=
  { customer_name := "Jane Doe", customer_address := none, customer_phone := none,
    customer_email := none, ppn_enabled := true, regional_tax_enabled := false,
    pph22_enabled := false, pph23_enabled := true, notes := none,
    transaction_date := none,
    items := [{ catalog_item_id := 1, quantity := 1, unit_price := 1000,
                discount_percentage := 0 }] }

/-- The row the C2 create run returns. -/
def c2wCreatedRow : TransactionRow :=
  ((createTransaction 0 "TRX-002" c2wDB c2wCreateInput).2.toOption).getD baseTxRow

/-- The row the C2 update run returns. -/
def c2wUpdatedRow : TransactionRow :=
  ((updateTransaction 1 c2xDB (pph23OnOnlyInput 1)).2.toOption).getD baseTxRow

set_option maxRecDepth 8000 in
/-- Witness for C2: the invariant at the concrete create and update runs. -/
theorem c2_total_invariant_witness :
    TaxTotalInvariant c2wCreatedRow ∧ TaxTotalInvariant c2wUpdatedRow :=
  ⟨(c2_total_invariant_amended 0 "TRX-002" c2wDB c2wCreateInput (pph23OnOnlyInput 1)
      c2wCreatedRow c2wUpdatedRow).1 (by with_unfolding_all decide),
   (c2_total_invariant_amended 1 "TRX-002" c2xDB c2wCreateInput (pph23OnOnlyInput 1)
      c2wCreatedRow c2wUpdatedRow).2 (by with_unfolding_all decide)
     (by with_unfolding_all decide)⟩

/-- A transaction whose persisted monetary fields agree with the update path's
own recomputation over the subtotal re-derived from its stored line totals
(at the update-path rates and its persisted flags). -/
def ConsistentTaxFields (s : DB) (t : TransactionRow) : Prop :=
  t.subtotal = updateSubtotal s t.id ∧
  t.ppn_amount = (taxCalcUpdate (updateSubtotal s t.id) t.ppn_enabled
    t.regional_tax_enabled t.pph22_enabled t.pph23_enabled).ppn_amount ∧
  t.regional_tax_amount = (taxCalcUpdate (updateSubtotal s t.id) t.ppn_enabled
    t.regional_tax_enabled t.pph22_enabled t.pph23_enabled).regional_tax_amount ∧
  t.pph22_amount = (taxCalcUpdate (updateSubtotal s t.id) t.ppn_enabled
    t.regional_tax_enabled t.pph22_enabled t.pph23_enabled).pph22_amount ∧
  t.pph23_amount = (taxCalcUpdate (updateSubtotal s t.id) t.ppn_enabled
    t.regional_tax_enabled t.pph22_enabled t.pph23_enabled).pph23_amount ∧
  t.stamp_duty_amount = (taxCalcUpdate (updateSubtotal s t.id) t.ppn_enabled
    t.regional_tax_enabled t.pph22_enabled t.pph23_enabled).stamp_duty_amount ∧
  t.total_amount = (taxCalcUpdate (updateSubtotal s t.id) t.ppn_enabled
    t.regional_tax_enabled t.pph22_enabled t.pph23_enabled).total_amount

instance (s : DB) (t : TransactionRow) : Decidable (ConsistentTaxFields s t) := by
  unfold ConsistentTaxFields
  exact inferInstance

/-- C5 (corrected): disabling ppn on an existing transaction recomputes
ppn_amount to 0, with the subtotal re-derived from the already-persisted line
items (the update input carries no items at all); and when the transaction's
persisted monetary fields are consistent with the update path's recomputation,
the new total_amount is lower than the previous one by exactly the prior
ppn_amount.  (Without that consistency — e.g. amounts written by the create
path's different regional/pph22 rates — the decrease differs; see the
counterexample.) -/
theorem c5_update_ppn_disable_amended (now : Nat) (s : DB) (id : Nat)
    (t : TransactionRow)
    (hfind : s.transactions.find? (fun x => x.id == id) = some t)
    (hppn : t.ppn_enabled = true)
    (hcons : ConsistentTaxFields s t) :
    ((updateTransaction now s (ppnOffOnlyInput id)).2.map (fun u =>
      (u.ppn_amount, u.subtotal, u.total_amount))) =
      .ok (0, updateSubtotal s id, t.total_amount - t.ppn_amount) := by
  have hid : t.id = id := by simpa using List.find?_some hfind
  obtain ⟨hsub, hppnA, hregA, hp22A, hp23A, hstampA, htot⟩ := hcons
  rw [hid] at hppnA htot
  rw [hppn] at hppnA htot
  simp only [updateTransaction, ppnOffOnlyInput, hfind, Option.isSome_some,
    Bool.true_or, if_true, Except.map, Option.getD_none]
  simp only [Except.ok.injEq, Prod.mk.injEq]
  refine ⟨by simp [taxCalcUpdate], trivial, ?_⟩
  rw [htot, hppnA]
  simp only [taxCalcUpdate]
  simp only [Option.getD_some, Bool.false_eq_true, if_false, if_true]
  ring

/-- A transaction whose persisted amounts came from a different rate set: the
regional amount 10 is 1% of the subtotal (the create path's literal), not the
update path's 10%. -/
def c5xTx : TransactionRow :=
  { baseTxRow with
    subtotal := 1000
    ppn_enabled := true
    ppn_amount := 110
    regional_tax_enabled := true
    regional_tax_amount := 10
    total_amount := 1120 }

/-- Database for the C5 counterexample run. -/
def c5xDB : DB :=
  { emptyDB with
    catalog_items := [sampleCatalogItem]
    transactions := [c5xTx]
    transaction_items := [sampleItemRow] }

/-- C5 counterexample: on a persisted transaction with ppn enabled whose
regional amount was written at the 1% rate, disabling ppn yields total 1100
(the regional tax is silently recomputed at 10%), not the claimed previous
total minus the prior ppn_amount (1120 - 110 = 1010). -/
theorem c5_update_ppn_disable_counterexample :
    c5xTx.ppn_enabled = true ∧
    ((updateTransaction 0 c5xDB (ppnOffOnlyInput 1)).2.map (fun u =>
      decide (u.total_amount = c5xTx.total_amount - c5xTx.ppn_amount))) = .ok false := by
  with_unfolding_all decide

/-- A consistent transaction for the C5 witness: subtotal 1000, ppn 110, all
else off, total 1110, matching its stored line row. -/
def c5wTx : TransactionRow :=
  { baseTxRow with
    subtotal := 1000
    ppn_enabled := true
    ppn_amount := 110
    total_amount := 1110 }

/-- Database for the C5 witness run. -/
def c5wDB : DB :=
  { emptyDB with
    catalog_items := [sampleCatalogItem]
    transactions := [c5wTx]
    transaction_items := [sampleItemRow] }

set_option maxRecDepth 8000 in
/-- Witness for C5: the consistent concrete run, where total drops from 1110
to 1000, exactly the prior ppn_amount 110. -/
theorem c5_update_ppn_disable_witness :
    ((updateTransaction 7 c5wDB (ppnOffOnlyInput 1)).2.map (fun u =>
      (u.ppn_amount, u.subtotal, u.total_amount))) =
      .ok ((0 : ℚ), (1000 : ℚ), (1000 : ℚ)) :=
  (c5_update_ppn_disable_amended 7 c5wDB 1 c5wTx (by decide) (by decide)
    (by with_unfolding_all decide)).trans (by with_unfolding_all decide)
